import Mathlib

/-!
Verification development for the lion tab-group and rich-select widgets.

The definitions below are a shallow embedding of the JavaScript sources:
the LionTabs class (tab group) and the LionSelectRich / LionSelectInvoker
classes (rich single-select listbox).  DOM elements are modelled as records
carrying an attribute map, a list of registered event listeners (identified
by numeric tokens standing for JavaScript function identity) and a focus
flag.  Event handlers become pure state-transition functions; code paths
that would raise a JavaScript TypeError are modelled with Except.
-/

namespace Lion

/-- A keyboard event: its key string and whether preventDefault was called. -/
structure KeyEvent where
  key : String
  defaultPrevented : Bool
deriving DecidableEq, Repr

/-- Model of the preventDefault call on an event. -/
def preventDefault (ev : KeyEvent) : KeyEvent :=
  { ev with defaultPrevented := true }

/-- A DOM element: an attribute map (setAttribute coerces values to strings),
the multiset of attached event listeners as (event-name, handler-identity)
pairs, and whether the element has received focus.  Handler identity tokens
model JavaScript function identity: two distinct function literals are never
equal, which is what addEventListener / removeEventListener compare. -/
structure Elem where
  attrs : String → Option String
  listeners : List (String × Nat)
  focused : Bool

/-- element.setAttribute(k, v). -/
def setAttribute (e : Elem) (k v : String) : Elem :=
  { e with attrs := fun k2 => if k2 = k then some v else e.attrs k2 }

/-- element.removeAttribute(k). -/
def removeAttribute (e : Elem) (k : String) : Elem :=
  { e with attrs := fun k2 => if k2 = k then none else e.attrs k2 }

/-- element.hasAttribute(k). -/
def hasAttribute (e : Elem) (k : String) : Bool :=
  (e.attrs k).isSome

/-- element.addEventListener(name, handler): registers the listener. -/
def addEventListener (e : Elem) (n : String) (h : Nat) : Elem :=
  { e with listeners := e.listeners ++ [(n, h)] }

/-- element.removeEventListener(name, handler): removes the registration
with exactly this event name and this handler identity; a no-op when no
such registration exists. -/
def removeEventListener (e : Elem) (n : String) (h : Nat) : Elem :=
  { e with listeners := e.listeners.filter (fun p => !(p.1 = n && p.2 = h)) }

/-- element.focus(). -/
def focusElem (e : Elem) : Elem :=
  { e with focused := true }

/-- An element with no attributes, listeners or focus. -/
def blankElem : Elem :=
  { attrs := fun _ => none, listeners := [], focused := false }

/-! ### LionTabs: module-level helper functions -/

/-- setupPanel from the tabs module: sets id, role and aria-labelledby.
The uid produced by the uuid() helper is modelled as a fresh counter value,
which preserves its one property: uniqueness per registration. -/
def setupPanel (p : Elem) (uid : Nat) : Elem :=
  setAttribute
    (setAttribute (setAttribute p "id" ("panel-" ++ toString uid)) "role" "tabpanel")
    "aria-labelledby" ("button-" ++ toString uid)

/-- selectPanel: element.setAttribute("selected", true). -/
def selectPanel (p : Elem) : Elem :=
  setAttribute p "selected" "true"

/-- deselectPanel: element.removeAttribute("selected"). -/
def deselectPanel (p : Elem) : Elem :=
  removeAttribute p "selected"

/-- setupButton: sets id / role / aria-controls and attaches the click,
keyup and keydown listeners.  kdTok is the identity of the anonymous arrow
function passed for keydown, allocated fresh at this call. -/
def setupButton (b : Elem) (uid clickTok keyTok kdTok : Nat) : Elem :=
  addEventListener
    (addEventListener
      (addEventListener
        (setAttribute
          (setAttribute (setAttribute b "id" ("button-" ++ toString uid)) "role" "tab")
          "aria-controls" ("panel-" ++ toString uid))
        "click" clickTok)
      "keyup" keyTok)
    "keydown" kdTok

/-- cleanButton: removes id / role / aria-controls and calls
removeEventListener for click, keyup and keydown.  The keydown removal is
given a NEW anonymous arrow function, so freshKdTok is a token allocated at
this call and is never equal to the token registered by setupButton. -/
def cleanButton (b : Elem) (clickTok keyTok freshKdTok : Nat) : Elem :=
  removeEventListener
    (removeEventListener
      (removeEventListener
        (removeAttribute (removeAttribute (removeAttribute b "id") "role") "aria-controls")
        "click" clickTok)
      "keyup" keyTok)
    "keydown" freshKdTok

/-- selectButton: focuses the trigger (unless this is the first update) and
sets the selected, aria-selected and tabindex attributes. -/
def selectButton (b : Elem) (firstUpdate : Bool) : Elem :=
  let b1 := if firstUpdate then b else focusElem b
  setAttribute (setAttribute (setAttribute b1 "selected" "true") "aria-selected" "true")
    "tabindex" "0"

/-- deselectButton: removes selected and sets aria-selected false and
tabindex -1. -/
def deselectButton (b : Elem) : Elem :=
  setAttribute (setAttribute (removeAttribute b "selected") "aria-selected" "false")
    "tabindex" "-1"

/-! ### LionTabs: component state -/

/-- One entry of the private store built by setupStore: the uid, the index
of its button/panel pair among the slotted children, and the identities of
the click and keyup handlers registered for it. -/
structure StoreEntry where
  uid : Nat
  idx : Nat
  clickTok : Nat
  keyTok : Nat
deriving DecidableEq, Repr

/-- The state of a LionTabs instance: the committed index (a raw JavaScript
number, so an unchecked integer), the firstUpdate flag, the slotted tab and
panel children in document order, the private store (undefined before the
first setupStore, hence Option), the log of dispatched events, the log of
console warnings, and a counter supplying fresh uids / function identities. -/
structure TabsState where
  selectedIndex : Int
  firstUpdate : Bool
  buttons : List Elem
  panels : List Elem
  store : Option (List StoreEntry)
  events : List String
  warnings : List String
  nextTok : Nat

/-- Apply a function to the element at one index of a child list, the model
of mutating a DOM element in place through a stored reference. -/
def modifyIdx (l : List Elem) (i : Nat) (f : Elem → Elem) : List Elem :=
  match l, i with
  | [], _ => []
  | x :: xs, 0 => f x :: xs
  | x :: xs, n + 1 => x :: modifyIdx xs n f

/-- Index into the store the way JavaScript array indexing behaves with an
arbitrary number: negative (or missing) indices give undefined. -/
def storeEntryAt (store : Option (List StoreEntry)) (v : Int) : Option StoreEntry :=
  match store with
  | none => none
  | some es => if v < 0 then none else es.get? v.toNat

/-- The index of the first child carrying the selected attribute, the model
of Array.from(this.children).find(child => child.hasAttribute("selected"));
returning the index models holding a reference to that element. -/
def findSelectedIdx : List Elem → Option Nat
  | [] => none
  | b :: rest =>
    if hasAttribute b "selected" then some 0 else (findSelectedIdx rest).map (· + 1)

/-- this._pairCount, i.e. this.store.length.  Only read by the keydown
handler, which is attached after setupStore has run, so the store exists. -/
def pairCount (st : TabsState) : Nat :=
  match st.store with
  | some es => es.length
  | none => 0

/-- updateSelected: when the store has an entry at the committed index,
deselect the previously selected button and panel (found by scanning the
children) and select the current entry's button and panel; otherwise do
nothing. -/
def updateSelected (st : TabsState) : TabsState :=
  match storeEntryAt st.store st.selectedIndex with
  | none => st
  | some entry =>
    let st1 :=
      match findSelectedIdx st.buttons with
      | some j => { st with buttons := modifyIdx st.buttons j deselectButton }
      | none => st
    let st2 :=
      match findSelectedIdx st1.panels with
      | some j => { st1 with panels := modifyIdx st1.panels j deselectPanel }
      | none => st1
    let st3 := { st2 with
      buttons := modifyIdx st2.buttons entry.idx (fun b => selectButton b st.firstUpdate) }
    { st3 with panels := modifyIdx st3.panels entry.idx selectPanel }

/-- The selectedIndex setter: clears firstUpdate, stores the new value
unconditionally, runs updateSelected and always dispatches the
selected-changed event. -/
def setSelectedIndex (st : TabsState) (v : Int) : TabsState :=
  let st1 := { st with firstUpdate := false, selectedIndex := v }
  let st2 := updateSelected st1
  { st2 with events := st2.events ++ ["selected-changed"] }

/-- handleButtonKeydown: the keyboard policy of the tab group (the handler
is attached to the keyup event of every trigger).  Each branch assigns
selectedIndex, i.e. commits through the setter. -/
def handleButtonKeydown (st : TabsState) (ev : KeyEvent) : TabsState × KeyEvent :=
  if ev.key = "ArrowDown" ∨ ev.key = "ArrowRight" then
    (setSelectedIndex st
      (if st.selectedIndex + 1 ≥ (pairCount st : Int) then 0 else st.selectedIndex + 1), ev)
  else if ev.key = "ArrowUp" ∨ ev.key = "ArrowLeft" then
    let ev2 := preventDefault ev
    (setSelectedIndex st
      (if st.selectedIndex ≤ 0 then (pairCount st : Int) - 1 else st.selectedIndex - 1), ev2)
  else if ev.key = "Home" then
    (setSelectedIndex st 0, preventDefault ev)
  else if ev.key = "End" then
    (setSelectedIndex st ((pairCount st : Int) - 1), preventDefault ev)
  else
    (st, ev)

/-- The anonymous keydown listener attached to every trigger by
setupButton: e => e.preventDefault(), unconditionally. -/
def buttonKeydownListener (ev : KeyEvent) : KeyEvent :=
  preventDefault ev

/-- The keys the tab-group keyboard policy recognizes (the switch cases of
handleButtonKeydown). -/
def recognizedKeys : List String :=
  ["ArrowDown", "ArrowRight", "ArrowUp", "ArrowLeft", "Home", "End"]

/-- The console.warn message emitted on a tab/panel count mismatch. -/
def warnMsg (st : TabsState) : String :=
  "The amount of tabs (" ++ toString st.buttons.length ++
    ") does not match the amount of panels (" ++ toString st.panels.length ++ ")."

/-- The TypeError raised when setupPanel receives an undefined panel. -/
def msgUndefined : String :=
  "TypeError: cannot read setAttribute of undefined"

/-- Append a new entry to the store (this.store.push(entry)). -/
def pushEntry (st : TabsState) (e : StoreEntry) : TabsState :=
  match st.store with
  | some es => { st with store := some (es ++ [e]) }
  | none => st

/-- One iteration of the buttons.forEach loop of setupStore: draws a fresh
uid and fresh handler identities, wires the panel (throwing when the panel
at this index is undefined, as element.setAttribute then would), wires the
button, deselects both, and pushes the store entry. -/
def setupEntry (st : TabsState) (index : Nat) : Except String TabsState :=
  let uid := st.nextTok
  let clickTok := st.nextTok + 1
  let keyTok := st.nextTok + 2
  let kdTok := st.nextTok + 3
  let st0 := { st with nextTok := st.nextTok + 4 }
  match st0.panels.get? index with
  | none => Except.error msgUndefined
  | some _ =>
    let st1 := { st0 with panels := modifyIdx st0.panels index (fun p => setupPanel p uid) }
    let st2 := { st1 with
      buttons := modifyIdx st1.buttons index (fun b => setupButton b uid clickTok keyTok kdTok) }
    let st3 := { st2 with panels := modifyIdx st2.panels index deselectPanel }
    let st4 := { st3 with buttons := modifyIdx st3.buttons index deselectButton }
    Except.ok (pushEntry st4 { uid := uid, idx := index, clickTok := clickTok, keyTok := keyTok })

/-- Run setupEntry for each index in turn, stopping at the first throw. -/
def setupEntriesAux : List Nat → TabsState → Except String TabsState
  | [], st => Except.ok st
  | i :: rest, st =>
    match setupEntry st i with
    | Except.error m => Except.error m
    | Except.ok st2 => setupEntriesAux rest st2

/-- setupStore: resets the store, warns (non-fatally) when the number of
tabs and panels differ, then runs the buttons.forEach loop over every
button index. -/
def setupStore (st : TabsState) : Except String TabsState :=
  let st1 := { st with store := some [] }
  let st2 :=
    if st1.buttons.length ≠ st1.panels.length then
      { st1 with warnings := st1.warnings ++ [warnMsg st1] }
    else st1
  setupEntriesAux (List.range st2.buttons.length) st2

/-- One iteration of the cleanStore loop: cleanButton on the entry's button
with the stored click and keyup handler identities and a freshly allocated
identity for the keydown removal (the new arrow function in cleanButton). -/
def cleanEntry (st : TabsState) (e : StoreEntry) : TabsState :=
  let fresh := st.nextTok
  { st with
    nextTok := st.nextTok + 1,
    buttons := modifyIdx st.buttons e.idx (fun b => cleanButton b e.clickTok e.keyTok fresh) }

/-- cleanStore: nothing when the store does not exist yet, otherwise
cleanButton for every stored entry.  Panels are never cleaned. -/
def cleanStore (st : TabsState) : TabsState :=
  match st.store with
  | none => st
  | some es => es.foldl cleanEntry st

/-- The slotchange handler installed by setupSlots: cleanStore, setupStore,
updateSelected.  A throw inside setupStore propagates and skips
updateSelected. -/
def handleSlotChange (st : TabsState) : Except String TabsState :=
  (setupStore (cleanStore st)).map updateSelected

/-! ### LionSelectRich and LionSelectInvoker -/

/-- A DOM node inside an option, identified by its content; cloneNode(true)
yields a node with identical content, so at this value level a clone is the
content itself. -/
abbrev DomNode := String

/-- node.cloneNode(deep): the clone carries the same content. -/
def cloneNode (_deep : Bool) (n : DomNode) : DomNode := n

/-- One option element registered with the listbox: its disabled flag, the
descendant elements returned by querySelectorAll("*") (the label nodes) and
its textContent. -/
structure OptionEl where
  disabled : Bool
  labelNodes : List DomNode
  textContent : String
deriving DecidableEq, Repr

/-- The state of a LionSelectRich instance visible to the handlers under
verification: host disabled/readOnly flags, overlay open state, the
platform interaction mode string, the checked (committed) and active
indices from the listbox, the registered option elements, the option
currently mirrored by the invoker (invoker.selectedElement) and the element
that last received focus. -/
structure RichState where
  disabled : Bool
  readOnly : Bool
  opened : Bool
  interactionMode : String
  checkedIndex : Option Int
  activeIndex : Int
  formElements : List OptionEl
  invokerSelected : Option OptionEl
  focusTarget : String
deriving DecidableEq, Repr

/-- Scan upward from a given index for the first non-disabled option, the
loop body of the (commented-out) getNextEnabledOption: stops as soon as the
index reaches the end of the collection. -/
def findEnabledUp (fes : List OptionEl) (i : Nat) (fuel : Nat) : Option Nat :=
  match fuel with
  | 0 => none
  | f + 1 =>
    match fes.get? i with
    | none => none
    | some o => if o.disabled then findEnabledUp fes (i + 1) f else some i

/-- Scan downward for the first non-disabled option, the loop body of the
(commented-out) getPreviousEnabledOption: runs while the index is at least
0, skipping indices past the end of the collection. -/
def findEnabledDown (fes : List OptionEl) (i : Int) (fuel : Nat) : Option Int :=
  match fuel with
  | 0 => none
  | f + 1 =>
    if i < 0 then none
    else
      match fes.get? i.toNat with
      | none => findEnabledDown fes (i - 1) f
      | some o => if o.disabled then findEnabledDown fes (i - 1) f else some i

/-- getNextEnabledOption, translated from the commented-out method body in
LionSelectRich.js (the live onKeyUp still references it): the first
non-disabled option at or after currentIndex + offset, or currentIndex
itself when none exists.  A negative start behaves like 0, as the
JavaScript loop skips undefined entries. -/
def getNextEnabledOption (fes : List OptionEl) (currentIndex offset : Int) : Int :=
  match findEnabledUp fes (currentIndex + offset).toNat (fes.length + 1) with
  | some i => (i : Int)
  | none => currentIndex

/-- getPreviousEnabledOption, translated from the commented-out method body
in LionSelectRich.js: the first non-disabled option at or below
currentIndex + offset, or currentIndex itself when none exists. -/
def getPreviousEnabledOption (fes : List OptionEl) (currentIndex offset : Int) : Int :=
  match findEnabledDown fes (currentIndex + offset) ((currentIndex + offset).toNat + 1) with
  | some i => i
  | none => currentIndex

/-- onKeyUp as the class actually executes it: guards on disabled and on an
open overlay, then on ArrowUp / ArrowDown calls preventDefault and either
opens the overlay (mac mode) or calls this.getPreviousEnabledOption /
this.getNextEnabledOption — methods that exist only as comments in the
class body, so the non-mac branch throws a TypeError. -/
def onKeyUp (st : RichState) (ev : KeyEvent) : Except String (RichState × KeyEvent) :=
  if st.disabled then Except.ok (st, ev)
  else if st.opened then Except.ok (st, ev)
  else if ev.key = "ArrowUp" then
    let ev2 := preventDefault ev
    if st.interactionMode = "mac" then Except.ok ({ st with opened := true }, ev2)
    else Except.error "TypeError: this.getPreviousEnabledOption is not a function"
  else if ev.key = "ArrowDown" then
    let ev2 := preventDefault ev
    if st.interactionMode = "mac" then Except.ok ({ st with opened := true }, ev2)
    else Except.error "TypeError: this.getNextEnabledOption is not a function"
  else Except.ok (st, ev)

/-- onKeyUp as intended: the same handler with the commented-out enabled
navigation helpers restored, committing the clamped, disabled-skipping
neighbour index in non-mac mode.  The Option.getD 0 mirrors the JavaScript
coercion of a null checkedIndex to 0 inside the arithmetic of the helper
loops. -/
def onKeyUpIntended (st : RichState) (ev : KeyEvent) : RichState × KeyEvent :=
  if st.disabled then (st, ev)
  else if st.opened then (st, ev)
  else if ev.key = "ArrowUp" then
    let ev2 := preventDefault ev
    if st.interactionMode = "mac" then ({ st with opened := true }, ev2)
    else
      let j := getPreviousEnabledOption st.formElements (st.checkedIndex.getD 0) (-1)
      ({ st with checkedIndex := some j }, ev2)
  else if ev.key = "ArrowDown" then
    let ev2 := preventDefault ev
    if st.interactionMode = "mac" then ({ st with opened := true }, ev2)
    else
      let j := getNextEnabledOption st.formElements (st.checkedIndex.getD 0) 1
      ({ st with checkedIndex := some j }, ev2)
  else (st, ev)

/-- The invoker click handler registered by setupInvokerNodeEventListener:
toggles the overlay unless the host is disabled or readOnly (the toggle of
the external overlay controller flips the open state). -/
def invokerOnClick (st : RichState) : RichState :=
  if !st.disabled && !st.readOnly then { st with opened := !st.opened } else st

/-- The overlay show handler registered by setupOverlay: copies
checkedIndex into activeIndex when checkedIndex is not null, then focuses
the listbox node. -/
def overlayOnShow (st : RichState) : RichState :=
  let st1 :=
    match st.checkedIndex with
    | some i => { st with activeIndex := i }
    | none => st
  { st1 with focusTarget := "listbox" }

/-- The overlay hide handler registered by setupOverlay: focuses the
invoker node. -/
def overlayOnHide (st : RichState) : RichState :=
  { st with focusTarget := "invoker" }

/-- JavaScript array indexing with a possibly null index:
this.formElements[this.checkedIndex] is undefined when checkedIndex is null
or out of range. -/
def jsElementAt (fes : List OptionEl) (ci : Option Int) : Option OptionEl :=
  match ci with
  | none => none
  | some i => if i < 0 then none else fes.get? i.toNat

/-- syncInvokerElement: copies formElements[checkedIndex] into the
invoker's selectedElement property. -/
def syncInvokerElement (st : RichState) : RichState :=
  { st with invokerSelected := jsElementAt st.formElements st.checkedIndex }

/-- Modelled from the spec: the ListboxMixin (imported but not among the
sources) turns every committed-index change into a modelValue update, and
the requestUpdate hook for modelValue invokes syncInvokerElement.
Committing index i is therefore setting checkedIndex followed by
syncInvokerElement. -/
def commitChecked (st : RichState) (i : Int) : RichState :=
  syncInvokerElement { st with checkedIndex := some i }

/-- What the invoker renders in its content wrapper. -/
inductive ContentResult
  | nodes : List DomNode → ContentResult
  | text : String → ContentResult
deriving DecidableEq, Repr

/-- contentTemplate of LionSelectInvoker: with a selected element, clones
of all its descendant elements when there are any, else its textContent;
with no selected element, the empty template string. -/
def contentTemplate (sel : Option OptionEl) : ContentResult :=
  match sel with
  | some el =>
    if 0 < el.labelNodes.length then ContentResult.nodes (el.labelNodes.map (cloneNode true))
    else ContentResult.text el.textContent
  | none => ContentResult.text ""

/-- The content the invoker of a rich select currently displays. -/
def invokerContent (st : RichState) : ContentResult :=
  contentTemplate st.invokerSelected

/-! ### Derived observations and concrete states -/

/-- Number of triggers currently carrying the selected attribute. -/
def selCount (bs : List Elem) : Nat :=
  (bs.filter (fun b => hasAttribute b "selected")).length

/-- The attribute pattern of a committed trigger: selected present,
aria-selected true, tabindex 0. -/
def selPattern (b : Elem) : Bool :=
  hasAttribute b "selected" && (b.attrs "aria-selected" == some "true")
    && (b.attrs "tabindex" == some "0")

/-- The attribute pattern of a non-committed trigger: no selected
attribute, aria-selected false, tabindex -1. -/
def unselPattern (b : Elem) : Bool :=
  !hasAttribute b "selected" && (b.attrs "aria-selected" == some "false")
    && (b.attrs "tabindex" == some "-1")

/-- The single-selection invariant over the triggers of a tab group:
exactly one trigger carries the committed pattern and all others the
non-committed pattern. -/
def tabsSelInvariant (bs : List Elem) : Prop :=
  ∃ k, k < bs.length ∧ ∀ i b, bs.get? i = some b →
    (if i = k then selPattern b = true else unselPattern b = true)

/-- Bounded boolean check behind tabsSelInvariant, scanning the list while
counting positions from i0. -/
def tabsSelChkAux (bs : List Elem) (i0 k : Nat) : Bool :=
  match bs with
  | [] => true
  | b :: rest => (if i0 = k then selPattern b else unselPattern b) && tabsSelChkAux rest (i0 + 1) k

/-- Decidable certificate for tabsSelInvariant with a given witness
position. -/
def tabsSelChk (bs : List Elem) (k : Nat) : Bool :=
  decide (k < bs.length) && tabsSelChkAux bs 0 k

/-- Registry coherence: the store exists and every stored entry points at a
button index inside the trigger collection. -/
def storeCoherent (st : TabsState) : Bool :=
  match st.store with
  | none => false
  | some es => es.all (fun e => decide (e.idx < st.buttons.length))

/-- Extract the state from a rebuild result, with a fallback for the throw
case. -/
def exceptD (e : Except String TabsState) (d : TabsState) : TabsState :=
  match e with
  | Except.ok st => st
  | Except.error _ => d

/-- The error message of a rebuild result, if it threw. -/
def rebuildError (e : Except String TabsState) : Option String :=
  match e with
  | Except.ok _ => none
  | Except.error m => some m

/-- A freshly constructed LionTabs host with two tab triggers and two
panels, before the first slotchange: the constructor assigned
selectedIndex = 0 (through the setter, while the store was still
undefined) and firstUpdated set the firstUpdate flag. -/
def tabsPre2 : TabsState :=
  { selectedIndex := 0, firstUpdate := true,
    buttons := [blankElem, blankElem], panels := [blankElem, blankElem],
    store := none, events := ["selected-changed"], warnings := [], nextTok := 0 }

/-- The two-tab host after its first slotchange rebuild. -/
def tabsInit2 : TabsState :=
  exceptD (handleSlotChange tabsPre2) tabsPre2

/-- The two-tab host after the public setter was given the out-of-range
index 5. -/
def tabsAfterSet5 : TabsState :=
  setSelectedIndex tabsInit2 5

/-- The two-tab host after a further slotchange rebuild performed while the
committed index is still 5. -/
def tabsRebuilt5 : TabsState :=
  exceptD (handleSlotChange tabsAfterSet5) tabsAfterSet5

/-- A host with one tab trigger and no panel, before its first rebuild. -/
def tabsMismatch : TabsState :=
  { selectedIndex := 0, firstUpdate := true,
    buttons := [blankElem], panels := [],
    store := none, events := ["selected-changed"], warnings := [], nextTok := 0 }

/-- A host with one tab trigger and two panels, before its first rebuild. -/
def tabsMorePanels : TabsState :=
  { selectedIndex := 0, firstUpdate := true,
    buttons := [blankElem], panels := [blankElem, blankElem],
    store := none, events := ["selected-changed"], warnings := [], nextTok := 0 }

/-- A three-entry tab state with the committed index at 0, as after an
initial rebuild of three tabs (only the fields the keyboard policy reads
matter to the claims that use it). -/
def tabsThree : TabsState :=
  { selectedIndex := 0, firstUpdate := false,
    buttons := [blankElem, blankElem, blankElem], panels := [blankElem, blankElem, blankElem],
    store := some [{ uid := 0, idx := 0, clickTok := 1, keyTok := 2 },
                   { uid := 4, idx := 1, clickTok := 5, keyTok := 6 },
                   { uid := 8, idx := 2, clickTok := 9, keyTok := 10 }],
    events := [], warnings := [], nextTok := 12 }

/-- The store of tabsThree as a list. -/
def tabsThreeEntries : List StoreEntry :=
  [{ uid := 0, idx := 0, clickTok := 1, keyTok := 2 },
   { uid := 4, idx := 1, clickTok := 5, keyTok := 6 },
   { uid := 8, idx := 2, clickTok := 9, keyTok := 10 }]

/-- An enabled option with one label node. -/
def optA : OptionEl := { disabled := false, labelNodes := ["labelA"], textContent := "A" }

/-- A disabled option. -/
def optBDis : OptionEl := { disabled := true, labelNodes := ["labelB"], textContent := "B" }

/-- Further enabled options. -/
def optC : OptionEl := { disabled := false, labelNodes := ["labelC"], textContent := "C" }

/-- An enabled option with no descendant elements, only text. -/
def optD : OptionEl := { disabled := false, labelNodes := [], textContent := "D" }

/-- A closed, enabled rich select in windows/linux (platform-b) interaction
mode with four options of which the second is disabled, checked at 0. -/
def richWin : RichState :=
  { disabled := false, readOnly := false, opened := false,
    interactionMode := "windows/linux", checkedIndex := some 0, activeIndex := 0,
    formElements := [optA, optBDis, optC, optD], invokerSelected := some optA,
    focusTarget := "" }

/-- The same select in mac (platform-a) interaction mode. -/
def richMac : RichState :=
  { richWin with interactionMode := "mac" }

/-- A rich select with no committed value and a nonzero active index. -/
def richUnset : RichState :=
  { richWin with checkedIndex := none, activeIndex := 2, invokerSelected := none }

/-- A disabled rich select. -/
def richDisabled : RichState :=
  { richWin with disabled := true }

/-- Deliver a key to a tab trigger's navigation handler (a fresh event with
no default prevented yet) and keep the resulting component state. -/
def pressKey (st : TabsState) (k : String) : TabsState :=
  (handleButtonKeydown st { key := k, defaultPrevented := false }).1

/-- One press of the next key (ArrowRight). -/
def pressNext (st : TabsState) : TabsState :=
  pressKey st "ArrowRight"

/-- The committed indices observed after each of the first N presses of the
next key. -/
def pressTrace (st : TabsState) (N : Nat) : List Int :=
  (List.range N).map (fun k => ((pressNext^[k + 1]) st).selectedIndex)

/-- The keyboard-policy property of the tab group with N entries: arrow
keys move with wraparound, Home/End jump to the ends, every recognized key
commits immediately (dispatches selected-changed), and N presses of the
next key from index 0 cycle through every index exactly once and return
to 0. -/
def tabsKeyPolicyProp (st : TabsState) (N : Nat) : Prop :=
  ((pressKey st "ArrowRight").selectedIndex
      = if st.selectedIndex = (N : Int) - 1 then 0 else st.selectedIndex + 1) ∧
  ((pressKey st "ArrowDown").selectedIndex
      = if st.selectedIndex = (N : Int) - 1 then 0 else st.selectedIndex + 1) ∧
  ((pressKey st "ArrowLeft").selectedIndex
      = if st.selectedIndex = 0 then (N : Int) - 1 else st.selectedIndex - 1) ∧
  ((pressKey st "ArrowUp").selectedIndex
      = if st.selectedIndex = 0 then (N : Int) - 1 else st.selectedIndex - 1) ∧
  ((pressKey st "Home").selectedIndex = 0) ∧
  ((pressKey st "End").selectedIndex = (N : Int) - 1) ∧
  (∀ k0 ∈ recognizedKeys, (pressKey st k0).events = st.events ++ ["selected-changed"]) ∧
  (st.selectedIndex = 0 →
    ((pressNext^[N]) st).selectedIndex = 0 ∧ (pressTrace st N).Nodup ∧
      ∀ j, j < N → ((j : Int) ∈ pressTrace st N))

/-- The deselection pass of updateSelected on the trigger list: deselect
the first trigger found carrying the selected attribute, if any. -/
def deselStep (bs : List Elem) : List Elem :=
  match findSelectedIdx bs with
  | some j => modifyIdx bs j deselectButton
  | none => bs

deriving instance DecidableEq for Except

/-! ### Basic lemmas about the embedding -/

theorem length_modifyIdx (l : List Elem) (i : Nat) (f : Elem → Elem) :
    (modifyIdx l i f).length = l.length := by
  induction l generalizing i with
  | nil => rfl
  | cons x xs ih => cases i with
    | zero => rfl
    | succ n => simp [modifyIdx, ih]

theorem get?_modifyIdx_self (l : List Elem) (i : Nat) (f : Elem → Elem) :
    (modifyIdx l i f).get? i = (l.get? i).map f := by
  induction l generalizing i with
  | nil => simp [modifyIdx]
  | cons x xs ih => cases i with
    | zero => rfl
    | succ n => simpa [modifyIdx] using ih n

theorem get?_modifyIdx_ne (l : List Elem) (i j : Nat) (f : Elem → Elem) (h : i ≠ j) :
    (modifyIdx l i f).get? j = l.get? j := by
  induction l generalizing i j with
  | nil => simp [modifyIdx]
  | cons x xs ih =>
    cases i with
    | zero => cases j with
      | zero => exact absurd rfl h
      | succ m => rfl
    | succ n => cases j with
      | zero => rfl
      | succ m => simpa [modifyIdx] using ih n m (by omega)

theorem updateSelected_none (st : TabsState)
    (h : storeEntryAt st.store st.selectedIndex = none) : updateSelected st = st := by
  unfold updateSelected
  rw [h]

theorem updateSelected_some (st : TabsState) (en : StoreEntry)
    (h : storeEntryAt st.store st.selectedIndex = some en) :
    updateSelected st = { st with
      buttons := modifyIdx (deselStep st.buttons) en.idx (fun b => selectButton b st.firstUpdate),
      panels := modifyIdx
        (match findSelectedIdx st.panels with
         | some j => modifyIdx st.panels j deselectPanel
         | none => st.panels) en.idx selectPanel } := by
  unfold updateSelected deselStep
  rw [h]
  rcases findSelectedIdx st.buttons with _ | j <;>
    rcases hp : findSelectedIdx st.panels with _ | j2 <;> simp [hp]

theorem updateSelected_frame (st : TabsState) :
    (updateSelected st).selectedIndex = st.selectedIndex ∧
    (updateSelected st).store = st.store ∧
    (updateSelected st).events = st.events ∧
    (updateSelected st).firstUpdate = st.firstUpdate ∧
    (updateSelected st).buttons.length = st.buttons.length := by
  rcases h : storeEntryAt st.store st.selectedIndex with _ | en
  · rw [updateSelected_none st h]
    exact ⟨rfl, rfl, rfl, rfl, rfl⟩
  · rw [updateSelected_some st en h]
    refine ⟨rfl, rfl, rfl, rfl, ?_⟩
    simp only [length_modifyIdx, deselStep]
    rcases findSelectedIdx st.buttons with _ | j
    · rfl
    · simp [length_modifyIdx]

theorem setSelectedIndex_frame (st : TabsState) (v : Int) :
    (setSelectedIndex st v).selectedIndex = v ∧
    (setSelectedIndex st v).store = st.store ∧
    (setSelectedIndex st v).events = st.events ++ ["selected-changed"] := by
  unfold setSelectedIndex
  dsimp only
  have h := updateSelected_frame { st with firstUpdate := false, selectedIndex := v }
  exact ⟨h.1, h.2.1, by rw [h.2.2.1]⟩

/-! ### Claim C1 -/

/-- C1, counterexample: on an initialized two-tab group committed at 0, the
commit setter applied to the out-of-range index 5 is not rejected — the
committed index becomes 5 and a selected-changed notification is
dispatched. -/
theorem C1_counterexample :
    tabsInit2.selectedIndex = 0 ∧
    storeEntryAt tabsInit2.store 5 = none ∧
    tabsAfterSet5.selectedIndex = 5 ∧
    tabsAfterSet5.events = tabsInit2.events ++ ["selected-changed"] := by decide

/-- C1, amended: the tabs commit setter performs no validation — for every
value, in range or not, it stores the value and always dispatches
selected-changed; when the stored index has no registry entry only the
attribute synchronization is skipped, leaving buttons, panels and store
untouched. -/
theorem C1_amended (st : TabsState) (v : Int) (h : storeEntryAt st.store v = none) :
    (setSelectedIndex st v).selectedIndex = v ∧
    (setSelectedIndex st v).events = st.events ++ ["selected-changed"] ∧
    (setSelectedIndex st v).buttons = st.buttons ∧
    (setSelectedIndex st v).panels = st.panels ∧
    (setSelectedIndex st v).store = st.store := by
  unfold setSelectedIndex
  dsimp only
  rw [updateSelected_none { st with firstUpdate := false, selectedIndex := v } h]
  exact ⟨rfl, rfl, rfl, rfl, rfl⟩

/-- C1, witness: the amended statement evaluated on the initialized two-tab
group at the out-of-range index 5. -/
theorem C1_witness :
    storeEntryAt tabsInit2.store 5 = none ∧
    ((setSelectedIndex tabsInit2 5).selectedIndex = 5 ∧
      (setSelectedIndex tabsInit2 5).events = tabsInit2.events ++ ["selected-changed"] ∧
      (setSelectedIndex tabsInit2 5).buttons = tabsInit2.buttons ∧
      (setSelectedIndex tabsInit2 5).panels = tabsInit2.panels ∧
      (setSelectedIndex tabsInit2 5).store = tabsInit2.store) :=
  ⟨by decide, C1_amended tabsInit2 5 (by decide)⟩

/-! ### Claim C2 -/

/-- C2: with the overlay closed and the host enabled, ArrowDown / ArrowUp
keyups in non-mac (platform-b) mode throw a TypeError, because the live
onKeyUp calls getNextEnabledOption / getPreviousEnabledOption, which exist
only as comments in the class body — the committed index never moves.  In
mac (platform-a) mode the same keyup opens the overlay and leaves
checkedIndex unchanged, as claimed.  The intended handler, with the
commented-out helpers restored, does move checkedIndex from 0 to 2 in the
spec scenario (second option disabled), clamps without wraparound, and
leaves the overlay closed. -/
theorem C2_bug :
    onKeyUp richWin { key := "ArrowDown", defaultPrevented := false }
      = Except.error "TypeError: this.getNextEnabledOption is not a function" ∧
    onKeyUp richWin { key := "ArrowUp", defaultPrevented := false }
      = Except.error "TypeError: this.getPreviousEnabledOption is not a function" ∧
    onKeyUp richMac { key := "ArrowDown", defaultPrevented := false }
      = Except.ok ({ richMac with opened := true },
          { key := "ArrowDown", defaultPrevented := true }) ∧
    (onKeyUpIntended richWin { key := "ArrowDown", defaultPrevented := false }).1.checkedIndex
      = some 2 ∧
    (onKeyUpIntended richWin { key := "ArrowDown", defaultPrevented := false }).1.opened
      = false ∧
    getNextEnabledOption [optA, optBDis] 0 1 = 0 := by decide

/-! ### Claim C3 -/

theorem selPattern_selectButton (b : Elem) (f : Bool) :
    selPattern (selectButton b f) = true := by
  cases f <;>
    simp [selPattern, selectButton, setAttribute, hasAttribute, focusElem]

theorem unselPattern_deselectButton (b : Elem) :
    unselPattern (deselectButton b) = true := by
  simp [unselPattern, deselectButton, setAttribute, removeAttribute, hasAttribute]

theorem hasAttr_of_selPattern {b : Elem} (h : selPattern b = true) :
    hasAttribute b "selected" = true := by
  simp only [selPattern, Bool.and_eq_true] at h
  exact h.1.1

theorem hasAttr_of_unselPattern {b : Elem} (h : unselPattern b = true) :
    hasAttribute b "selected" = false := by
  simp only [unselPattern, Bool.and_eq_true, Bool.not_eq_true'] at h
  exact h.1.1

theorem findSelectedIdx_eq (bs : List Elem) (k : Nat) (hk : k < bs.length)
    (hsel : ∀ b, bs.get? k = some b → hasAttribute b "selected" = true)
    (hoth : ∀ i b, i ≠ k → bs.get? i = some b → hasAttribute b "selected" = false) :
    findSelectedIdx bs = some k := by
  induction bs generalizing k with
  | nil => exact absurd hk (by simp)
  | cons b rest ih =>
    cases k with
    | zero =>
      have hb := hsel b rfl
      simp [findSelectedIdx, hb]
    | succ m =>
      have hb : hasAttribute b "selected" = false := hoth 0 b (by omega) rfl
      have hrest : findSelectedIdx rest = some m := by
        refine ih m (by simpa using hk) (fun b2 hb2 => hsel b2 hb2) ?_
        intro i b2 hi hb2
        exact hoth (i + 1) b2 (by omega) hb2
      simp [findSelectedIdx, hb, hrest]

theorem tabsSelChkAux_sound (bs : List Elem) (i0 k : Nat)
    (h : tabsSelChkAux bs i0 k = true) :
    ∀ i b, bs.get? i = some b →
      (if i0 + i = k then selPattern b = true else unselPattern b = true) := by
  induction bs generalizing i0 with
  | nil => intro i b hb; simp at hb
  | cons x rest ih =>
    simp only [tabsSelChkAux, Bool.and_eq_true] at h
    intro i b hb
    cases i with
    | zero =>
      have hx : x = b := by simpa using hb
      subst hx
      simpa using h.1
    | succ m =>
      have := ih (i0 + 1) h.2 m b (by simpa using hb)
      have harith : i0 + 1 + m = i0 + (m + 1) := by omega
      rwa [harith] at this

theorem tabsSelInvariant_of_chk (bs : List Elem) (k : Nat)
    (h : tabsSelChk bs k = true) : tabsSelInvariant bs := by
  simp only [tabsSelChk, Bool.and_eq_true, decide_eq_true_eq] at h
  refine ⟨k, h.1, fun i b hb => ?_⟩
  have := tabsSelChkAux_sound bs 0 k h.2 i b hb
  simpa using this

theorem selCount_pos_of_inv {bs : List Elem} (h : tabsSelInvariant bs) :
    0 < selCount bs := by
  obtain ⟨k, hk, hall⟩ := h
  have hget : bs.get? k = some (bs.get ⟨k, hk⟩) := List.get?_eq_get hk
  have hpat := hall k _ hget
  rw [if_pos rfl] at hpat
  have hattr := hasAttr_of_selPattern hpat
  have hmem : bs.get ⟨k, hk⟩ ∈ bs := List.get?_mem hget
  exact List.length_pos_of_mem (List.mem_filter.2 ⟨hmem, hattr⟩)

/-- C3, counterexample: the invariant is reachable-state false.  Starting
from the initialized two-tab group, set the committed index to the
out-of-range value 5 (still one trigger selected) and let a slotchange
rebuild run: the rebuild deselects every trigger and, the index being out
of range, updateSelected re-establishes nothing — the registry still has
two entries but no trigger carries the selected attribute. -/
theorem C3_counterexample :
    rebuildError (handleSlotChange tabsAfterSet5) = none ∧
    pairCount tabsRebuilt5 = 2 ∧
    selCount tabsRebuilt5.buttons = 0 ∧
    ¬ tabsSelInvariant tabsRebuilt5.buttons := by
  refine ⟨by decide, by decide, by decide, fun hinv => ?_⟩
  exact absurd (selCount_pos_of_inv hinv) (by decide)

/-- C3, amended: the exactly-one-selected attribute invariant (selected +
aria-selected true + tabindex 0 on one trigger, aria-selected false +
tabindex -1 on all others) holds after initialization and is preserved by
every committed-index mutation, in-range or not; it is however NOT
re-established by a registry rebuild performed while the committed index is
out of range, which leaves zero triggers selected. -/
theorem C3_amended (st : TabsState) (v : Int)
    (hco : storeCoherent st = true) (hinv : tabsSelInvariant st.buttons) :
    tabsSelInvariant (setSelectedIndex st v).buttons ∧
    storeCoherent (setSelectedIndex st v) = true := by
  obtain ⟨k, hk, hall⟩ := hinv
  have hstore : ∃ es, st.store = some es ∧
      ∀ e ∈ es, e.idx < st.buttons.length := by
    unfold storeCoherent at hco
    rcases hs : st.store with _ | es
    · rw [hs] at hco; exact absurd hco (by simp)
    · rw [hs] at hco
      refine ⟨es, rfl, fun e he => ?_⟩
      have := List.all_eq_true.1 hco e he
      simpa using this
  obtain ⟨es, hs, hes⟩ := hstore
  -- the setter stores v then runs updateSelected on st1
  unfold setSelectedIndex
  dsimp only
  set st1 : TabsState := { st with firstUpdate := false, selectedIndex := v } with hst1
  have hst1b : st1.buttons = st.buttons := rfl
  have hst1s : st1.store = st.store := rfl
  rcases hlook : storeEntryAt st1.store st1.selectedIndex with _ | en
  · -- out of range: nothing changes
    rw [updateSelected_none st1 hlook]
    constructor
    · exact ⟨k, hk, hall⟩
    · unfold storeCoherent at hco ⊢
      rw [hs] at hco ⊢
      simpa using hco
  · -- in range: deselect the previous trigger, select entry en
    have hen : en ∈ es := by
      rw [hst1s, hs] at hlook
      simp only [storeEntryAt] at hlook
      by_cases hv : st1.selectedIndex < 0
      · rw [if_pos hv] at hlook; cases hlook
      · rw [if_neg hv] at hlook
        exact List.get?_mem hlook
    have hidx : en.idx < st.buttons.length := hes en hen
    rw [updateSelected_some st1 en hlook]
    have hfind : findSelectedIdx st.buttons = some k := by
      refine findSelectedIdx_eq st.buttons k hk ?_ ?_
      · intro b hb
        have := hall k b hb
        rw [if_pos rfl] at this
        exact hasAttr_of_selPattern this
      · intro i b hi hb
        have := hall i b hb
        rw [if_neg hi] at this
        exact hasAttr_of_unselPattern this
    have hdesel : deselStep st1.buttons = modifyIdx st.buttons k deselectButton := by
      unfold deselStep
      rw [hst1b, hfind]
    constructor
    · -- the new buttons satisfy the invariant with witness en.idx
      dsimp only
      rw [hdesel]
      refine ⟨en.idx, ?_, ?_⟩
      · rw [length_modifyIdx, length_modifyIdx]
        exact hidx
      · intro i b hb
        by_cases hie : i = en.idx
        · rw [if_pos hie]
          rw [hie, get?_modifyIdx_self] at hb
          rcases hb2 : (modifyIdx st.buttons k deselectButton).get? en.idx with _ | b0
          · rw [hb2] at hb; cases hb
          · rw [hb2] at hb
            have hfb : selectButton b0 st1.firstUpdate = b := by simpa using hb
            rw [← hfb]
            exact selPattern_selectButton b0 st1.firstUpdate
        · rw [if_neg hie]
          rw [get?_modifyIdx_ne _ _ _ _ (fun he => hie he.symm)] at hb
          by_cases hik : i = k
          · rw [hik, get?_modifyIdx_self] at hb
            rcases hb2 : st.buttons.get? k with _ | b0
            · rw [hb2] at hb; cases hb
            · rw [hb2] at hb
              have hfb : deselectButton b0 = b := by simpa using hb
              rw [← hfb]
              exact unselPattern_deselectButton b0
          · rw [get?_modifyIdx_ne _ _ _ _ (fun he => hik he.symm)] at hb
            have := hall i b hb
            rwa [if_neg hik] at this
    · -- store and trigger count unchanged, so coherence survives
      unfold storeCoherent
      dsimp only
      rw [hst1s, hs]
      simp only [length_modifyIdx]
      rw [hdesel]
      simp only [length_modifyIdx]
      exact List.all_eq_true.2 (fun e he => by
        have := hes e he
        simpa using this)

/-- C3, witness: the preservation statement evaluated on the initialized
two-tab group for the in-range mutation to index 1. -/
theorem C3_witness :
    tabsSelInvariant (setSelectedIndex tabsInit2 1).buttons ∧
    storeCoherent (setSelectedIndex tabsInit2 1) = true :=
  C3_amended tabsInit2 1 (by decide)
    (tabsSelInvariant_of_chk tabsInit2.buttons 0 (by decide))

/-! ### Claim C4 -/

theorem pressKey_right (st : TabsState) :
    pressKey st "ArrowRight" = setSelectedIndex st
      (if st.selectedIndex + 1 ≥ (pairCount st : Int) then 0 else st.selectedIndex + 1) := by
  simp [pressKey, handleButtonKeydown]

theorem pressKey_down (st : TabsState) :
    pressKey st "ArrowDown" = setSelectedIndex st
      (if st.selectedIndex + 1 ≥ (pairCount st : Int) then 0 else st.selectedIndex + 1) := by
  simp [pressKey, handleButtonKeydown]

theorem pressKey_left (st : TabsState) :
    pressKey st "ArrowLeft" = setSelectedIndex st
      (if st.selectedIndex ≤ 0 then (pairCount st : Int) - 1 else st.selectedIndex - 1) := by
  simp [pressKey, handleButtonKeydown]

theorem pressKey_up (st : TabsState) :
    pressKey st "ArrowUp" = setSelectedIndex st
      (if st.selectedIndex ≤ 0 then (pairCount st : Int) - 1 else st.selectedIndex - 1) := by
  simp [pressKey, handleButtonKeydown]

theorem pressKey_home (st : TabsState) :
    pressKey st "Home" = setSelectedIndex st 0 := by
  simp [pressKey, handleButtonKeydown]

theorem pressKey_endKey (st : TabsState) :
    pressKey st "End" = setSelectedIndex st ((pairCount st : Int) - 1) := by
  simp [pressKey, handleButtonKeydown]

theorem pressNext_def (st : TabsState) : pressNext st = pressKey st "ArrowRight" := rfl

theorem pressNext_iter (st : TabsState) (es : List StoreEntry) (hs : st.store = some es)
    (h0 : st.selectedIndex = 0) (hN : 0 < es.length) :
    ∀ k, k ≤ es.length →
      ((pressNext^[k]) st).store = some es ∧
      ((pressNext^[k]) st).selectedIndex = (if k = es.length then 0 else (k : Int)) := by
  intro k
  induction k with
  | zero =>
    intro _
    rw [Function.iterate_zero_apply]
    exact ⟨hs, by rw [h0, if_neg (by omega)]; simp⟩
  | succ k ih =>
    intro hk1
    obtain ⟨ihs, ihi⟩ := ih (by omega)
    rw [Function.iterate_succ_apply']
    have hidx : ((pressNext^[k]) st).selectedIndex = (k : Int) := by
      rw [ihi, if_neg (by omega)]
    have hpc : pairCount ((pressNext^[k]) st) = es.length := by
      unfold pairCount
      rw [ihs]
    rw [pressNext_def, pressKey_right]
    have hframe := setSelectedIndex_frame ((pressNext^[k]) st)
      (if ((pressNext^[k]) st).selectedIndex + 1 ≥ (pairCount ((pressNext^[k]) st) : Int) then 0
       else ((pressNext^[k]) st).selectedIndex + 1)
    refine ⟨by rw [hframe.2.1, ihs], ?_⟩
    rw [hframe.1, hpc, hidx]
    split_ifs <;> push_cast <;> omega

/-- C4: the tab-group keyboard policy — ArrowRight/ArrowDown advance with
wraparound to 0 at the last index, ArrowLeft/ArrowUp go back with
wraparound to the last index at 0, Home and End jump to the ends, every
recognized key commits immediately through the setter, and pressing the
next key N times from index 0 returns to 0 visiting each index exactly
once. -/
theorem C4_policy (st : TabsState) (es : List StoreEntry) (hs : st.store = some es)
    (hlo : 0 ≤ st.selectedIndex) (hhi : st.selectedIndex < (es.length : Int)) :
    tabsKeyPolicyProp st es.length := by
  have hpc : pairCount st = es.length := by unfold pairCount; rw [hs]
  have hN : 0 < es.length := by
    by_contra h
    omega
  refine ⟨?_, ?_, ?_, ?_, ?_, ?_, ?_, ?_⟩
  · rw [pressKey_right, (setSelectedIndex_frame st _).1, hpc]
    split_ifs <;> omega
  · rw [pressKey_down, (setSelectedIndex_frame st _).1, hpc]
    split_ifs <;> omega
  · rw [pressKey_left, (setSelectedIndex_frame st _).1, hpc]
    split_ifs <;> omega
  · rw [pressKey_up, (setSelectedIndex_frame st _).1, hpc]
    split_ifs <;> omega
  · rw [pressKey_home, (setSelectedIndex_frame st _).1]
  · rw [pressKey_endKey, (setSelectedIndex_frame st _).1, hpc]
  · intro k0 hk0
    have hmem : k0 = "ArrowDown" ∨ k0 = "ArrowRight" ∨ k0 = "ArrowUp" ∨ k0 = "ArrowLeft"
        ∨ k0 = "Home" ∨ k0 = "End" := by
      simpa [recognizedKeys] using hk0
    rcases hmem with rfl | rfl | rfl | rfl | rfl | rfl
    · rw [pressKey_down]; exact (setSelectedIndex_frame st _).2.2
    · rw [pressKey_right]; exact (setSelectedIndex_frame st _).2.2
    · rw [pressKey_up]; exact (setSelectedIndex_frame st _).2.2
    · rw [pressKey_left]; exact (setSelectedIndex_frame st _).2.2
    · rw [pressKey_home]; exact (setSelectedIndex_frame st _).2.2
    · rw [pressKey_endKey]; exact (setSelectedIndex_frame st _).2.2
  · intro h0
    have hiter := pressNext_iter st es hs h0 hN
    have htr : pressTrace st es.length =
        (List.range es.length).map
          (fun k => if k + 1 = es.length then (0 : Int) else ((k + 1 : Nat) : Int)) := by
      unfold pressTrace
      refine List.map_congr_left ?_
      intro k hk
      have hk2 : k < es.length := List.mem_range.1 hk
      exact (hiter (k + 1) (by omega)).2
    refine ⟨(hiter es.length (le_refl _)).2.trans (if_pos rfl), ?_, ?_⟩
    · rw [htr]
      refine (List.nodup_range es.length).map ?_
      intro a b hab
      simp only at hab
      split_ifs at hab <;> omega
    · intro j hj
      rw [htr]
      rcases Nat.eq_zero_or_pos j with hj0 | hj1
      · refine List.mem_map.2 ⟨es.length - 1, List.mem_range.2 (by omega), ?_⟩
        rw [if_pos (by omega), hj0]
        simp
      · refine List.mem_map.2 ⟨j - 1, List.mem_range.2 (by omega), ?_⟩
        rw [if_neg (by omega)]
        push_cast
        omega

/-- C4, witness: the policy evaluated on a three-tab group committed at
index 0. -/
theorem C4_witness :
    tabsThree.store = some tabsThreeEntries ∧
    tabsKeyPolicyProp tabsThree tabsThreeEntries.length :=
  ⟨rfl, C4_policy tabsThree tabsThreeEntries rfl (by decide) (by decide)⟩

/-! ### Claim C5 -/

theorem setupEntry_ok (st : TabsState) (i : Nat) (es : List StoreEntry)
    (h : i < st.panels.length) (hs : st.store = some es) :
    ∃ st2, setupEntry st i = Except.ok st2 ∧
      st2.store = some (es ++ [StoreEntry.mk st.nextTok i (st.nextTok + 1) (st.nextTok + 2)]) ∧
      st2.buttons.length = st.buttons.length ∧
      st2.panels.length = st.panels.length ∧
      st2.warnings = st.warnings := by
  unfold setupEntry
  dsimp only
  rw [List.get?_eq_get h]
  refine ⟨_, rfl, ?_, ?_, ?_, ?_⟩
  · simp [pushEntry, hs]
  · simp [pushEntry, hs, length_modifyIdx]
  · simp [pushEntry, hs, length_modifyIdx]
  · simp [pushEntry, hs]

theorem setupEntry_err (st : TabsState) (i : Nat) (h : st.panels.length ≤ i) :
    setupEntry st i = Except.error msgUndefined := by
  unfold setupEntry
  dsimp only
  rw [List.get?_eq_none.2 h]

theorem setupEntriesAux_ok (is : List Nat) :
    ∀ (st : TabsState) (es : List StoreEntry), st.store = some es →
      (∀ i ∈ is, i < st.panels.length) →
      ∃ st2 es2, setupEntriesAux is st = Except.ok st2 ∧ st2.store = some es2 ∧
        es2.length = es.length + is.length ∧
        st2.buttons.length = st.buttons.length ∧
        st2.panels.length = st.panels.length ∧
        st2.warnings = st.warnings := by
  induction is with
  | nil =>
    intro st es hs _
    exact ⟨st, es, rfl, hs, by simp, rfl, rfl, rfl⟩
  | cons i rest ih =>
    intro st es hs hmem
    obtain ⟨st2, h2ok, h2s, h2b, h2p, h2w⟩ := setupEntry_ok st i es (hmem i (by simp)) hs
    obtain ⟨st3, es3, h3ok, h3s, h3len, h3b, h3p, h3w⟩ :=
      ih st2 _ h2s (fun j hj => by rw [h2p]; exact hmem j (by simp [hj]))
    refine ⟨st3, es3, ?_, h3s, ?_, ?_, ?_, ?_⟩
    · simp [setupEntriesAux, h2ok, h3ok]
    · rw [h3len]
      simp
      omega
    · rw [h3b, h2b]
    · rw [h3p, h2p]
    · rw [h3w, h2w]

theorem setupEntriesAux_append (l1 l2 : List Nat) :
    ∀ st, setupEntriesAux (l1 ++ l2) st =
      match setupEntriesAux l1 st with
      | Except.error m => Except.error m
      | Except.ok st2 => setupEntriesAux l2 st2 := by
  induction l1 with
  | nil => intro st; rfl
  | cons i rest ih =>
    intro st
    rcases hse : setupEntry st i with m | st2 <;>
      simp [setupEntriesAux, hse, ih]

theorem setupStore_eq (st : TabsState) :
    ∃ stW, setupStore st = setupEntriesAux (List.range st.buttons.length) stW ∧
      stW.store = some [] ∧ stW.buttons = st.buttons ∧ stW.panels = st.panels ∧
      stW.warnings = (if st.buttons.length ≠ st.panels.length
        then st.warnings ++ [warnMsg st] else st.warnings) := by
  unfold setupStore
  dsimp only
  split_ifs with h
  · exact ⟨_, rfl, rfl, rfl, rfl, rfl⟩
  · exact ⟨_, rfl, rfl, rfl, rfl, rfl⟩

/-- C5, counterexample: with one tab trigger and zero panels the rebuild
does not fail softly — after the count-mismatch warning, wiring the first
trigger dereferences an undefined panel and throws. -/
theorem C5_counterexample :
    tabsMismatch.buttons.length = 1 ∧
    tabsMismatch.panels.length = 0 ∧
    rebuildError (handleSlotChange tabsMismatch) = some msgUndefined := by decide

/-- C5, amended: the rebuild reports a count mismatch via a non-fatal
console warning and proceeds; when there are at least as many panels as
triggers it completes, building exactly one entry per trigger (the shorter
count); but when there are more triggers than panels it throws a TypeError
while wiring the first trigger that lacks a panel. -/
theorem C5_amended (st : TabsState) :
    (st.buttons.length ≤ st.panels.length →
      ∃ st2 es2, setupStore st = Except.ok st2 ∧ st2.store = some es2 ∧
        es2.length = st.buttons.length ∧
        st2.warnings = (if st.buttons.length ≠ st.panels.length
          then st.warnings ++ [warnMsg st] else st.warnings)) ∧
    (st.panels.length < st.buttons.length →
      setupStore st = Except.error msgUndefined) := by
  obtain ⟨stW, hW, hWs, hWb, hWp, hWw⟩ := setupStore_eq st
  constructor
  · intro hle
    obtain ⟨st2, es2, hok, hs2, hlen, _, _, hw2⟩ :=
      setupEntriesAux_ok (List.range st.buttons.length) stW [] hWs
        (fun i hi => by
          rw [hWp]
          exact lt_of_lt_of_le (List.mem_range.1 hi) hle)
    refine ⟨st2, es2, ?_, hs2, ?_, ?_⟩
    · rw [hW]; exact hok
    · simpa using hlen
    · rw [hw2, hWw]
  · intro hlt
    obtain ⟨m, hm⟩ : ∃ m, st.buttons.length - st.panels.length = m + 1 :=
      ⟨st.buttons.length - st.panels.length - 1, by omega⟩
    have hsum : st.panels.length + (st.buttons.length - st.panels.length)
        = st.buttons.length := Nat.add_sub_cancel' (le_of_lt hlt)
    have hsplit : List.range st.buttons.length =
        List.range st.panels.length ++
          (st.panels.length :: ((List.range m).map Nat.succ).map (st.panels.length + ·)) := by
      rw [← hsum, List.range_add, hm, List.range_succ_eq_map]
      simp
    obtain ⟨stM, esM, hokM, hsM, _, _, hpM, _⟩ :=
      setupEntriesAux_ok (List.range st.panels.length) stW [] hWs
        (fun i hi => by rw [hWp]; exact List.mem_range.1 hi)
    have herr : setupEntry stM st.panels.length = Except.error msgUndefined :=
      setupEntry_err stM st.panels.length (by rw [hpM, hWp])
    rw [hW, hsplit, setupEntriesAux_append, hokM]
    simp [setupEntriesAux, herr]

/-- C5, witness: the amended statement evaluated on the host with one
trigger and two panels (soft mismatch case); the throwing direction is
witnessed by C5 itself on this input being vacuous and exercised concretely
by the counterexample input through the same theorem. -/
theorem C5_witness :
    (tabsMorePanels.buttons.length ≤ tabsMorePanels.panels.length →
      ∃ st2 es2, setupStore tabsMorePanels = Except.ok st2 ∧ st2.store = some es2 ∧
        es2.length = tabsMorePanels.buttons.length ∧
        st2.warnings = (if tabsMorePanels.buttons.length ≠ tabsMorePanels.panels.length
          then tabsMorePanels.warnings ++ [warnMsg tabsMorePanels]
          else tabsMorePanels.warnings)) ∧
    (tabsMorePanels.panels.length < tabsMorePanels.buttons.length →
      setupStore tabsMorePanels = Except.error msgUndefined) :=
  C5_amended tabsMorePanels

/-! ### Claim C6 -/

/-- C6: registry teardown leaks the keydown listener.  cleanButton passes a
freshly created arrow function to removeEventListener for keydown, which
never matches the function registered by setupButton, so after setup
followed by clean the keydown handler of the first rebuild is still
attached; a second rebuild therefore leaves two keydown listeners where a
single rebuild leaves one.  Teardown also never removes the id / role /
aria-labelledby attributes that setupPanel put on the panels. -/
theorem C6_bug :
    (cleanButton (setupButton blankElem 0 1 2 3) 1 2 4).listeners = [("keydown", 3)] ∧
    ((setupButton (cleanButton (setupButton blankElem 0 1 2 3) 1 2 4) 5 6 7 8).listeners.filter
        (fun p => p.1 == "keydown")).length = 2 ∧
    ((setupButton blankElem 5 6 7 8).listeners.filter (fun p => p.1 == "keydown")).length = 1 ∧
    hasAttribute ((cleanStore tabsInit2).panels.getD 0 blankElem) "role" = true := by decide

/-! ### Claim C7 -/

/-- C7, counterexample: opening the overlay with checkedIndex unset does
not seed activeIndex to 0 — the show handler leaves activeIndex at its old
value (2 here). -/
theorem C7_counterexample :
    richUnset.checkedIndex = none ∧
    richUnset.activeIndex = 2 ∧
    (overlayOnShow richUnset).activeIndex = 2 := by decide

/-- C7, amended: on closed-to-open, activeIndex is seeded from checkedIndex
when checkedIndex is set and left unchanged when it is unset (not set
to 0), and focus moves into the listbox; on open-to-closed focus returns to
the invoker. -/
theorem C7_amended (st : RichState) :
    (overlayOnShow st).focusTarget = "listbox" ∧
    (st.checkedIndex = none → (overlayOnShow st).activeIndex = st.activeIndex) ∧
    (∀ i, st.checkedIndex = some i → (overlayOnShow st).activeIndex = i) ∧
    (overlayOnHide st).focusTarget = "invoker" := by
  refine ⟨rfl, fun h => ?_, fun i h => ?_, rfl⟩
  · unfold overlayOnShow
    rw [h]
  · unfold overlayOnShow
    rw [h]

/-- C7, witness: the amended statement evaluated on the checked rich
select. -/
theorem C7_witness :
    (overlayOnShow richWin).focusTarget = "listbox" ∧
    (richWin.checkedIndex = none → (overlayOnShow richWin).activeIndex = richWin.activeIndex) ∧
    (∀ i, richWin.checkedIndex = some i → (overlayOnShow richWin).activeIndex = i) ∧
    (overlayOnHide richWin).focusTarget = "invoker" :=
  C7_amended richWin

/-! ### Claim C8 -/

/-- C8: committing index i copies formElements at i into the invoker's
selectedElement, whose rendered content is then the clones of that entry's
descendant elements (or its text when it has none); with no selected
element the invoker renders the empty string. -/
theorem C8_invoker (st : RichState) (i : Nat) (el : OptionEl)
    (h : st.formElements.get? i = some el) :
    (commitChecked st (i : Int)).invokerSelected = some el ∧
    invokerContent (commitChecked st (i : Int)) =
      (if 0 < el.labelNodes.length then
        ContentResult.nodes (el.labelNodes.map (cloneNode true))
       else ContentResult.text el.textContent) ∧
    (∀ st2 : RichState, st2.invokerSelected = none →
      invokerContent st2 = ContentResult.text "") := by
  have hsel : (commitChecked st (i : Int)).invokerSelected = some el := by
    unfold commitChecked syncInvokerElement jsElementAt
    simpa using h
  refine ⟨hsel, ?_, fun st2 h2 => ?_⟩
  · unfold invokerContent
    rw [hsel]
    rfl
  · unfold invokerContent
    rw [h2]
    rfl

/-- C8, witness: committing index 2 of the four-option select puts the
third option on the invoker and renders the clone of its label node;
richUnset itself demonstrates the empty rendering. -/
theorem C8_witness :
    richUnset.formElements.get? 2 = some optC ∧
    ((commitChecked richUnset (2 : Int)).invokerSelected = some optC ∧
      invokerContent (commitChecked richUnset (2 : Int)) =
        (if 0 < optC.labelNodes.length then
          ContentResult.nodes (optC.labelNodes.map (cloneNode true))
         else ContentResult.text optC.textContent) ∧
      (∀ st2 : RichState, st2.invokerSelected = none →
        invokerContent st2 = ContentResult.text "")) :=
  ⟨by decide, C8_invoker richUnset 2 optC (by decide)⟩

/-! ### Claim C9 -/

/-- C9, counterexample: the catch-all keydown listener installed on every
tab trigger suppresses the default action of the key "a", which the
keyboard policy does not recognize. -/
theorem C9_counterexample :
    (buttonKeydownListener { key := "a", defaultPrevented := false }).defaultPrevented = true ∧
    recognizedKeys.contains "a" = false := by decide

/-- C9, amended: default key behavior on a tab trigger is suppressed for
EVERY key, not only recognized ones — setupButton attaches a keydown
listener that always calls preventDefault; the navigation handler (on
keyup) additionally calls preventDefault exactly for ArrowUp, ArrowLeft,
Home and End, but not for ArrowDown or ArrowRight. -/
theorem C9_amended (st : TabsState) (ev : KeyEvent) :
    (buttonKeydownListener ev).defaultPrevented = true ∧
    (handleButtonKeydown st ev).2.defaultPrevented =
      (ev.defaultPrevented ||
        (ev.key == "ArrowUp" || ev.key == "ArrowLeft" || ev.key == "Home" || ev.key == "End")) := by
  refine ⟨rfl, ?_⟩
  unfold handleButtonKeydown
  by_cases h1 : ev.key = "ArrowDown" ∨ ev.key = "ArrowRight"
  · rcases h1 with h | h <;> simp [h, preventDefault]
  · by_cases h2 : ev.key = "ArrowUp" ∨ ev.key = "ArrowLeft"
    · rcases h2 with h | h <;> simp [h, h1, preventDefault]
    · by_cases h3 : ev.key = "Home"
      · simp [h3, h1, h2, preventDefault]
      · by_cases h4 : ev.key = "End"
        · simp [h4, h1, h2, h3, preventDefault]
        · push_neg at h1 h2
          simp [h1.1, h1.2, h2.1, h2.2, h3, h4]

/-! ### Claim C10 -/

/-- C10: when the rich select is disabled, every keyup leaves the whole
state unchanged (the handler returns before touching opened, checkedIndex
or activeIndex and before preventDefault); and when it is disabled or
readOnly, the invoker click handler does not toggle the overlay. -/
theorem C10_frame (st : RichState) (ev : KeyEvent) :
    (st.disabled = true → onKeyUp st ev = Except.ok (st, ev)) ∧
    (st.disabled = true ∨ st.readOnly = true → invokerOnClick st = st) := by
  constructor
  · intro h
    unfold onKeyUp
    rw [h]
    rfl
  · intro h
    unfold invokerOnClick
    rcases h with h | h <;> simp [h]

/-- C10, witness: the frame property evaluated on the disabled rich select
with an ArrowDown keyup. -/
theorem C10_witness :
    richDisabled.disabled = true ∧
    onKeyUp richDisabled { key := "ArrowDown", defaultPrevented := false }
      = Except.ok (richDisabled, { key := "ArrowDown", defaultPrevented := false }) ∧
    invokerOnClick richDisabled = richDisabled :=
  ⟨rfl,
    (C10_frame richDisabled { key := "ArrowDown", defaultPrevented := false }).1 rfl,
    (C10_frame richDisabled { key := "ArrowDown", defaultPrevented := false }).2 (Or.inl rfl)⟩

end Lion
